import Mathlib

/-!
Shallow embedding of the livestack backend (`src/backend/main.py`).

The backend exposes two operations:

* `GET /recommend` (`recommend server_hint`): resolves a server/region from an
  optional hint, picks a catalog item at random, mints a fresh content id and
  stamps the current UTC time rendered by `datetime.isoformat`.
* `POST /rate` (`rate payload`): validates presence of `content_id` and
  `rating` in the payload, prints one log line on success.

Randomness (`random.choice`), identifier generation (`uuid.uuid4()`) and the
clock (`datetime.utcnow()`) are modelled as inputs drawn once per request and
packaged in `RecEnv`: `random.choice` on a list is an index into that list,
`uuid4` is the drawn identifier text, and the clock is a `DateTime` value.
The `print` side effect of `rate` is modelled as the list of emitted log
lines returned alongside the response payload.
-/

/-- `REGIONS` from `main.py`: the known-edge set. -/
def REGIONS : List String := ["edge-us-1", "edge-eu-1", "edge-apac-1"]

/-- One catalog entry: a dict with `title` and `body` keys in `main.py`. -/
structure ContentItem where
  title : String
  body : String
deriving DecidableEq

/-- `VIDEOS` from `main.py`: the fixed in-memory catalog. -/
def VIDEOS : List ContentItem :=
  [⟨"How TikTok Recommends Videos",
    "A deep dive into real-time recommendation engines."⟩,
   ⟨"Distributed Systems 101",
    "What every engineer should know about distributed computing."⟩,
   ⟨"Murdoch vs Redstone",
    "The history of media empires and power."⟩,
   ⟨"Building a CDN Simulator",
    "Simulating multi-edge routing and latency."⟩,
   ⟨"Ellison's AI Cluster",
    "Inside Oracle's 1.2 billion-watt GPU brain."⟩]

/-- A naive `datetime` value as produced by `datetime.utcnow()`. -/
structure DateTime where
  year : Nat
  month : Nat
  day : Nat
  hour : Nat
  minute : Nat
  second : Nat
  microsecond : Nat
deriving DecidableEq

/-- Field ranges maintained by Python's `datetime` objects. -/
abbrev DateTime.Valid (d : DateTime) : Prop :=
  1 ≤ d.year ∧ d.year ≤ 9999 ∧ 1 ≤ d.month ∧ d.month ≤ 12 ∧
  1 ≤ d.day ∧ d.day ≤ 31 ∧ d.hour ≤ 23 ∧ d.minute ≤ 59 ∧
  d.second ≤ 59 ∧ d.microsecond ≤ 999999

/-- The ASCII digit character for `n < 10`. -/
def digitChar (n : Nat) : Char := Char.ofNat (48 + n)

/-- `n` rendered as exactly `w` decimal digits, zero padded (`%0wd`). -/
def padDigits : Nat → Nat → List Char
  | 0, _ => []
  | w + 1, n => digitChar (n / 10 ^ w) :: padDigits w (n % 10 ^ w)

/-- Character list of `datetime.isoformat()` on a naive datetime:
`YYYY-MM-DDTHH:MM:SS` followed by `.ffffff` exactly when the microsecond
field is nonzero. -/
def isoformatChars (d : DateTime) : List Char :=
  padDigits 4 d.year ++ Char.ofNat 45 ::
  (padDigits 2 d.month ++ Char.ofNat 45 ::
  (padDigits 2 d.day ++ Char.ofNat 84 ::
  (padDigits 2 d.hour ++ Char.ofNat 58 ::
  (padDigits 2 d.minute ++ Char.ofNat 58 ::
  (padDigits 2 d.second ++
    (if d.microsecond = 0 then []
     else Char.ofNat 46 :: padDigits 6 d.microsecond))))))

/-- `datetime.isoformat()` as text. -/
def isoformat (d : DateTime) : String := String.mk (isoformatChars d)

/-- The per-request reading of the process-wide random source and clock:
the ingredients `recommend` consumes besides its argument. -/
structure RecEnv where
  regionChoice : Fin REGIONS.length
  videoChoice : Fin VIDEOS.length
  uuid : String
  now : DateTime

/-- The response record of `GET /recommend`. -/
structure Recommendation where
  content_id : String
  title : String
  body : String
  server_id : String
  server_region : String
  timestamp : String
deriving DecidableEq

/-- The JSON object returned on the wire, as the ordered key/value list of
the dict literal in `recommend`. -/
def Recommendation.toWire (r : Recommendation) : List (String × String) :=
  [("content_id", r.content_id), ("title", r.title), ("body", r.body),
   ("server_id", r.server_id), ("server_region", r.server_region),
   ("timestamp", r.timestamp)]

/-- `recommend` from `main.py`.  `server_hint is None` selects a random
region; otherwise the hint is used verbatim.  A random video is copied into
the response together with a fresh uuid and the formatted UTC time. -/
def recommend (env : RecEnv) (server_hint : Option String) : Recommendation :=
  let server : String :=
    match server_hint with
    | none => REGIONS.get env.regionChoice
    | some h => h
  let video : ContentItem := VIDEOS.get env.videoChoice
  { content_id := env.uuid
    title := video.title
    body := video.body
    server_id := server
    server_region := server
    timestamp := isoformat env.now }

/-- A JSON value usable as a `rating`; the service never constrains it
beyond presence. -/
inductive RateValue
  | num (n : Int)
  | str (s : String)
deriving DecidableEq

/-- Rendering of a rating inside the Python f-string. -/
def RateValue.render : RateValue → String
  | num n => toString n
  | str s => s

/-- The `POST /rate` payload after `payload.get`: each field is `none` when
the key is absent. -/
structure RatePayload where
  content_id : Option String
  rating : Option RateValue

/-- The response of `POST /rate`: `{"status": "ok"}` or
`{"status": "error", "message": ...}`. -/
inductive Outcome
  | ok
  | error (message : String)
deriving DecidableEq

/-- Python truthiness test `not content_id` on an optional string: true on
`None` and on the empty string. -/
def falsy : Option String → Bool
  | none => true
  | some s => s.isEmpty

/-- `rate` from `main.py`.  Returns the response outcome together with the
list of log lines printed during the call (the only side effect). -/
def rate (payload : RatePayload) : Outcome × List String :=
  let content_id := payload.content_id
  let rating := payload.rating
  if falsy content_id || rating.isNone then
    (Outcome.error "Invalid payload", [])
  else
    (Outcome.ok,
     ["[RATE] content_id=" ++ content_id.getD "" ++ " rating=" ++
       (rating.getD (RateValue.str "")).render])

/-- `line` contains `s` as a contiguous substring. -/
def containsStr (line s : String) : Prop :=
  ∃ pre post, line = pre ++ s ++ post

/-!
An ISO-8601 parser, used to state that the `timestamp` text is parseable
back into the UTC instant it was created from.  It reads exactly the shapes
`YYYY-MM-DDTHH:MM:SS` and `YYYY-MM-DDTHH:MM:SS.ffffff`.
-/

/-- Consume exactly `w` decimal digits from the front, accumulating their
value; fails on a non-digit or on exhaustion. -/
def parseFixedAux : Nat → Nat → List Char → Option (Nat × List Char)
  | 0, acc, cs => some (acc, cs)
  | _ + 1, _, [] => none
  | w + 1, acc, c :: cs =>
    if c.isDigit then parseFixedAux w (acc * 10 + (c.toNat - 48)) cs else none

/-- Consume one expected separator character. -/
def expectChar (c : Char) : List Char → Option (List Char)
  | [] => none
  | x :: xs => if x = c then some xs else none

/-- Parse an ISO-8601 character list into the `DateTime` it denotes. -/
def isoParseChars (cs : List Char) : Option DateTime :=
  (parseFixedAux 4 0 cs).bind fun py =>
  (expectChar (Char.ofNat 45) py.2).bind fun cs1 =>
  (parseFixedAux 2 0 cs1).bind fun pmo =>
  (expectChar (Char.ofNat 45) pmo.2).bind fun cs2 =>
  (parseFixedAux 2 0 cs2).bind fun pd =>
  (expectChar (Char.ofNat 84) pd.2).bind fun cs3 =>
  (parseFixedAux 2 0 cs3).bind fun ph =>
  (expectChar (Char.ofNat 58) ph.2).bind fun cs4 =>
  (parseFixedAux 2 0 cs4).bind fun pmi =>
  (expectChar (Char.ofNat 58) pmi.2).bind fun cs5 =>
  (parseFixedAux 2 0 cs5).bind fun ps =>
  match ps.2 with
  | [] => some ⟨py.1, pmo.1, pd.1, ph.1, pmi.1, ps.1, 0⟩
  | c :: us =>
    if c = Char.ofNat 46 then
      (parseFixedAux 6 0 us).bind fun pu =>
        if pu.2.isEmpty then
          some ⟨py.1, pmo.1, pd.1, ph.1, pmi.1, ps.1, pu.1⟩
        else none
    else none

/-- Parse ISO-8601 text. -/
def isoParse (s : String) : Option DateTime := isoParseChars s.data

lemma digitChar_isDigit {d : Nat} (h : d < 10) : (digitChar d).isDigit = true := by
  interval_cases d <;> decide

lemma digitChar_toNat {d : Nat} (h : d < 10) : (digitChar d).toNat - 48 = d := by
  interval_cases d <;> decide

lemma parseFixedAux_pad (w : Nat) :
    ∀ (n acc : Nat) (rest : List Char), n < 10 ^ w →
      parseFixedAux w acc (padDigits w n ++ rest) =
        some (acc * 10 ^ w + n, rest) := by
  induction w with
  | zero =>
    intro n acc rest h
    have hn : n = 0 := by omega
    subst hn
    simp [padDigits, parseFixedAux]
  | succ w ih =>
    intro n acc rest h
    have hP : 0 < 10 ^ w := pow_pos (by norm_num) w
    have hq : n / 10 ^ w < 10 := by
      apply Nat.div_lt_of_lt_mul
      calc n < 10 ^ (w + 1) := h
        _ = 10 ^ w * 10 := pow_succ 10 w
    simp only [padDigits, List.cons_append, List.append_eq, parseFixedAux,
      digitChar_isDigit hq, if_true]
    rw [digitChar_toNat hq, ih (n % 10 ^ w) (acc * 10 + n / 10 ^ w) rest
      (Nat.mod_lt _ hP)]
    congr 2
    have hdm : 10 ^ w * (n / 10 ^ w) + n % 10 ^ w = n := Nat.div_add_mod n _
    rw [pow_succ]
    nlinarith [hdm]

lemma parseFixed_pad (w n : Nat) (h : n < 10 ^ w) (rest : List Char) :
    parseFixedAux w 0 (padDigits w n ++ rest) = some (n, rest) := by
  simpa using parseFixedAux_pad w n 0 rest h

lemma parseFixed_pad_nil (w n : Nat) (h : n < 10 ^ w) :
    parseFixedAux w 0 (padDigits w n) = some (n, []) := by
  simpa using parseFixed_pad w n h []

lemma expectChar_cons (c : Char) (cs : List Char) :
    expectChar c (c :: cs) = some cs := by
  simp [expectChar]

/-- Round trip: parsing the rendered ISO-8601 text of a valid datetime gives
that datetime back. -/
lemma isoParseChars_isoformatChars (d : DateTime) (h : d.Valid) :
    isoParseChars (isoformatChars d) = some d := by
  obtain ⟨y, mo, dd, hh, mi, ss, us⟩ := d
  obtain ⟨h1, h2, h3, h4, h5, h6, h7, h8, h9, h10⟩ := h
  dsimp only at h1 h2 h3 h4 h5 h6 h7 h8 h9 h10
  have e4 : (10 : ℕ) ^ 4 = 10000 := by norm_num
  have e2 : (10 : ℕ) ^ 2 = 100 := by norm_num
  have e6 : (10 : ℕ) ^ 6 = 1000000 := by norm_num
  have hy : y < 10 ^ 4 := by omega
  have hmo : mo < 10 ^ 2 := by omega
  have hdd : dd < 10 ^ 2 := by omega
  have hhh : hh < 10 ^ 2 := by omega
  have hmi : mi < 10 ^ 2 := by omega
  have hss : ss < 10 ^ 2 := by omega
  have hus : us < 10 ^ 6 := by omega
  unfold isoformatChars isoParseChars
  dsimp only
  by_cases hus0 : us = 0
  · subst hus0
    simp only [eq_self_iff_true, if_true, parseFixed_pad 4 y hy,
      Option.some_bind, expectChar_cons, parseFixed_pad 2 mo hmo,
      parseFixed_pad 2 dd hdd, parseFixed_pad 2 hh hhh,
      parseFixed_pad 2 mi hmi, parseFixed_pad 2 ss hss]
  · simp only [if_neg hus0, parseFixed_pad 4 y hy, Option.some_bind,
      expectChar_cons, parseFixed_pad 2 mo hmo, parseFixed_pad 2 dd hdd,
      parseFixed_pad 2 hh hhh, parseFixed_pad 2 mi hmi,
      parseFixed_pad 2 ss hss, parseFixed_pad_nil 6 us hus,
      List.isEmpty_nil, eq_self_iff_true, if_true]

/-!
Concrete request environments used by the witnesses below.
-/

/-- A concrete per-request environment. -/
def demoEnv : RecEnv :=
  ⟨⟨0, by decide⟩, ⟨0, by decide⟩, "uuid-demo-1", ⟨2024, 5, 6, 7, 8, 9, 10⟩⟩

/-- A second concrete per-request environment with a different uuid draw. -/
def demoEnv2 : RecEnv :=
  ⟨⟨1, by decide⟩, ⟨2, by decide⟩, "uuid-demo-2", ⟨2024, 5, 6, 7, 8, 9, 0⟩⟩

/-- C1: a present, non-empty hint (also one outside the known-edge set) is
used verbatim: the response's `server_id` and `server_region` both equal the
hint, with no validation against `REGIONS`. -/
theorem recommend_hint_verbatim (env : RecEnv) (h : String) (_hne : h ≠ "") :
    (recommend env (some h)).server_id = h ∧
    (recommend env (some h)).server_region = h :=
  ⟨rfl, rfl⟩

theorem recommend_hint_verbatim_witness :
    ("edge-mars-9" ≠ "") ∧
    (recommend demoEnv (some "edge-mars-9")).server_id = "edge-mars-9" ∧
    (recommend demoEnv (some "edge-mars-9")).server_region = "edge-mars-9" :=
  ⟨by decide, recommend_hint_verbatim demoEnv "edge-mars-9" (by decide)⟩

/-- C2: a payload with an absent or empty `content_id`, or an absent
`rating`, makes `rate` return the structured error outcome with its
human-readable message; `rate` is a total function, so no crash occurs. -/
theorem rate_invalid_payload (p : RatePayload)
    (h : p.content_id = none ∨ p.content_id = some "" ∨ p.rating = none) :
    (rate p).1 = Outcome.error "Invalid payload" := by
  rcases h with h | h | h <;> simp [rate, falsy, h, String.isEmpty_iff]

theorem rate_invalid_payload_witness :
    ((⟨some "", some (RateValue.num 4)⟩ : RatePayload).content_id = none ∨
     (⟨some "", some (RateValue.num 4)⟩ : RatePayload).content_id = some "" ∨
     (⟨some "", some (RateValue.num 4)⟩ : RatePayload).rating = none) ∧
    (rate ⟨some "", some (RateValue.num 4)⟩).1 =
      Outcome.error "Invalid payload" :=
  ⟨Or.inr (Or.inl rfl),
   rate_invalid_payload ⟨some "", some (RateValue.num 4)⟩
     (Or.inr (Or.inl rfl))⟩

/-- C3: the response object carries exactly the six keys `content_id`,
`title`, `body`, `server_id`, `server_region`, `timestamp`, in that order,
each text valued (`Recommendation.toWire` maps keys to `String` values), and
the `server_region` value equals the `server_id` value. -/
theorem recommend_wire_shape (env : RecEnv) (hint : Option String) :
    (recommend env hint).toWire.map Prod.fst =
      ["content_id", "title", "body", "server_id", "server_region",
       "timestamp"] ∧
    (recommend env hint).server_region = (recommend env hint).server_id :=
  ⟨rfl, rfl⟩

/-- C4: `content_id` is exactly the uuid drawn for the call, independent of
hints and of the selected catalog item, so calls whose uuid draws are
pairwise distinct return pairwise distinct `content_id`s, and over `N` such
calls the set of returned `content_id`s has `N` elements. -/
theorem recommend_content_id_unique (calls : List (RecEnv × Option String))
    (h : (calls.map fun c => c.1.uuid).Nodup) :
    (calls.map fun c => (recommend c.1 c.2).content_id).Nodup ∧
    (calls.map fun c => (recommend c.1 c.2).content_id).toFinset.card =
      calls.length := by
  have he : (calls.map fun c : RecEnv × Option String =>
      (recommend c.1 c.2).content_id) = calls.map fun c => c.1.uuid := rfl
  constructor
  · exact he ▸ h
  · rw [he, List.toFinset_card_of_nodup h, List.length_map]

theorem recommend_content_id_unique_witness :
    ((([(demoEnv, none), (demoEnv2, some "edge-eu-1")] :
        List (RecEnv × Option String)).map fun c => c.1.uuid).Nodup) ∧
    ((([(demoEnv, none), (demoEnv2, some "edge-eu-1")] :
        List (RecEnv × Option String)).map
          fun c => (recommend c.1 c.2).content_id).Nodup ∧
     (([(demoEnv, none), (demoEnv2, some "edge-eu-1")] :
        List (RecEnv × Option String)).map
          fun c => (recommend c.1 c.2).content_id).toFinset.card =
      ([(demoEnv, none), (demoEnv2, some "edge-eu-1")] :
        List (RecEnv × Option String)).length) :=
  ⟨by decide,
   recommend_content_id_unique
     [(demoEnv, none), (demoEnv2, some "edge-eu-1")] (by decide)⟩

/-- C5: with the hint absent, the resolved edge is the region drawn from
`REGIONS` by the random source, hence always a member of the non-empty
known-edge set; the draw is an index chosen uniformly over `Fin
REGIONS.length`, and indexing is a bijection onto the members of `REGIONS`,
so the induced distribution over edges is uniform as well. -/
theorem recommend_no_hint_from_regions (env : RecEnv) :
    (recommend env none).server_id = REGIONS.get env.regionChoice ∧
    (recommend env none).server_region = REGIONS.get env.regionChoice ∧
    (recommend env none).server_id ∈ REGIONS ∧
    REGIONS ≠ [] ∧
    Function.Injective (fun i : Fin REGIONS.length => REGIONS.get i) ∧
    ∀ r ∈ REGIONS, ∃ i : Fin REGIONS.length, REGIONS.get i = r :=
  ⟨rfl, rfl, List.get_mem REGIONS env.regionChoice.1 env.regionChoice.2,
   by decide, by decide, by decide⟩

/-- C6: a payload with a non-empty `content_id` and a present `rating`
makes `rate` return the success outcome and emit exactly one log line, which
contains both the `content_id` and the rendered rating; the returned line
list is the call's entire side effect in this model. -/
theorem rate_success_logs (p : RatePayload) (cid : String) (r : RateValue)
    (hc : p.content_id = some cid) (hcne : cid ≠ "")
    (hr : p.rating = some r) :
    ∃ line,
      rate p = (Outcome.ok, [line]) ∧
      containsStr line cid ∧ containsStr line r.render := by
  have hfalsy : falsy (some cid) = false := by
    simp only [falsy]
    rw [← Bool.not_eq_true, String.isEmpty_iff]
    exact hcne
  refine ⟨"[RATE] content_id=" ++ cid ++ " rating=" ++ r.render, ?_, ?_, ?_⟩
  · simp [rate, hc, hr, hfalsy]
  · exact ⟨"[RATE] content_id=", " rating=" ++ r.render,
      by rw [String.append_assoc]⟩
  · exact ⟨"[RATE] content_id=" ++ cid ++ " rating=", "",
      (String.append_empty _).symm⟩

theorem rate_success_logs_witness :
    ((⟨some "abc-123", some (RateValue.num 4)⟩ : RatePayload).content_id =
      some "abc-123") ∧ ("abc-123" ≠ "") ∧
    ((⟨some "abc-123", some (RateValue.num 4)⟩ : RatePayload).rating =
      some (RateValue.num 4)) ∧
    ∃ line,
      rate ⟨some "abc-123", some (RateValue.num 4)⟩ = (Outcome.ok, [line]) ∧
      containsStr line "abc-123" ∧
      containsStr line (RateValue.num 4).render :=
  ⟨rfl, by decide, rfl,
   rate_success_logs ⟨some "abc-123", some (RateValue.num 4)⟩ "abc-123"
     (RateValue.num 4) rfl (by decide) rfl⟩

/-- C7: the response's `timestamp` is the ISO-8601 rendering of the UTC
clock reading taken during the call, and parsing that text recovers exactly
that UTC instant. -/
theorem recommend_timestamp_iso (env : RecEnv) (hint : Option String)
    (h : env.now.Valid) :
    (recommend env hint).timestamp = isoformat env.now ∧
    isoParse (recommend env hint).timestamp = some env.now := by
  refine ⟨rfl, ?_⟩
  show isoParseChars (isoformatChars env.now) = some env.now
  exact isoParseChars_isoformatChars env.now h

theorem recommend_timestamp_iso_witness :
    demoEnv.now.Valid ∧
    (recommend demoEnv none).timestamp = isoformat demoEnv.now ∧
    isoParse (recommend demoEnv none).timestamp = some demoEnv.now :=
  ⟨by decide, recommend_timestamp_iso demoEnv none (by decide)⟩

/-- C8: the returned `title`/`body` pair is copied from a single entry of
the fixed catalog `VIDEOS` — never a mixture of two entries or values from
outside the catalog. -/
theorem recommend_from_catalog (env : RecEnv) (hint : Option String) :
    ∃ v, v ∈ VIDEOS ∧ (recommend env hint).title = v.title ∧
      (recommend env hint).body = v.body :=
  ⟨VIDEOS.get env.videoChoice,
   List.get_mem VIDEOS env.videoChoice.1 env.videoChoice.2, rfl, rfl⟩

/-- C9: a present-but-empty hint is used verbatim: the response carries the
empty string as `server_id` and `server_region` (which is not a member of
the known-edge set), while the random fallback to `REGIONS` happens only
for an absent hint. -/
theorem recommend_empty_hint_verbatim (env : RecEnv) :
    (recommend env (some "")).server_id = "" ∧
    (recommend env (some "")).server_region = "" ∧
    "" ∉ REGIONS ∧
    (recommend env none).server_id = REGIONS.get env.regionChoice :=
  ⟨rfl, rfl, by decide, rfl⟩

/-- C10: `rate` emits a log line exactly when it returns the success
outcome, so a validation failure leaves the log stream unchanged. -/
theorem rate_log_iff_ok (p : RatePayload) :
    (rate p).2 ≠ [] ↔ (rate p).1 = Outcome.ok := by
  by_cases hb : (falsy p.content_id || p.rating.isNone) = true <;>
    simp [rate, hb]
